import Mathlib

/-!
Shallow embedding of `cs2_window_tracker.cpp` (Electron native addon).

The program has two layers:
* a stateless query layer (`FindWindowByPid`, `GetDpiScaleForHwnd`,
  `ForceActivateWindow`, ...), modelled as pure functions over an explicit
  OS-environment record supplying the results of the Win32 calls the code
  makes;
* the event-subscription core (`StartWinEventHook`, `StopWinEventHook`,
  `WinEventProc`) whose single piece of mutable state is the global
  `g_hookState : HookState*`, modelled as an `Option HookState` threaded
  explicitly through the operations.

Win32 handles (`HWND`, `HWINEVENTHOOK`) are modelled as `Nat`, with `0`
playing the role of `NULL`; a nullable handle is an `Option Nat`.  The JS
callback reference is modelled by an identifier (`Nat`); `jsCallback.IsEmpty()`
corresponds to the `Option` being `none`.
-/

namespace CS2Tracker

/-! ### Win32 event constants (lines 11-22 of the source) -/

def EVENT_OBJECT_LOCATIONCHANGE : Nat := 0x800B

def EVENT_SYSTEM_MOVESIZESTART : Nat := 0x000A

def EVENT_SYSTEM_MOVESIZEEND : Nat := 0x000B

def EVENT_SYSTEM_MINIMIZESTART : Nat := 0x0016

def EVENT_SYSTEM_MINIMIZEEND : Nat := 0x0017

def EVENT_SYSTEM_FOREGROUND : Nat := 0x0003

def EVENT_OBJECT_DESTROY : Nat := 0x8001

def WS_EX_TOOLWINDOW : Nat := 0x00000080

def OBJID_WINDOW : Int := 0

def CHILDID_SELF : Int := 0

/-! ### The global hook state (struct `HookState`, lines 25-34) -/

/-- Mirror of the C++ `HookState` struct: the target pid, the JS callback
reference (`none` models an empty `Napi::FunctionReference`), and the four
`HWINEVENTHOOK` handles (`none` models `NULL`). -/
structure HookState where
  targetPid : Nat
  jsCallback : Option Nat
  hookHandle1 : Option Nat
  hookHandle2 : Option Nat
  hookHandle3 : Option Nat
  hookHandle4 : Option Nat
  deriving DecidableEq, Repr

/-- The live hook tokens of a subscription, in the order the code unhooks
them (handle1, handle2, handle3, handle4, skipping `NULL` ones). -/
def liveTokens (st : HookState) : List Nat :=
  st.hookHandle1.toList ++ st.hookHandle2.toList ++
    st.hookHandle3.toList ++ st.hookHandle4.toList

/-! ### `StartWinEventHook` (lines 404-501) -/

/-- Result of a `startWinEventHook` call: the new global state, the list of
OS hook tokens released by the teardown of the previous subscription
(the `UnhookWinEvent` calls on lines 413-429), and the surfaced error
(`some code` models `Napi::Error` thrown with `GetLastError()` = `code`). -/
structure StartResult where
  state : Option HookState
  released : List Nat
  error : Option Nat
  deriving DecidableEq, Repr

/-- `StartWinEventHook` (lines 404-501).  `g` is `g_hookState` on entry;
`r1`-`r4` are the return values of the four `SetWinEventHook` calls
(`none` = `NULL`); `lastError` is what `GetLastError()` would return.
The code first tears down any existing subscription (unhooking every
non-`NULL` handle and resetting the callback), then installs the new state;
if all four registrations returned `NULL` it deletes the new state and
throws, leaving `g_hookState = nullptr`. -/
def startWinEventHook (g : Option HookState) (pid h : Nat)
    (r1 r2 r3 r4 : Option Nat) (lastError : Nat) : StartResult :=
  let released := match g with
    | some st => liveTokens st
    | none => []
  if r1.isNone && r2.isNone && r3.isNone && r4.isNone then
    { state := none, released := released, error := some lastError }
  else
    { state := some { targetPid := pid, jsCallback := some h,
                      hookHandle1 := r1, hookHandle2 := r2,
                      hookHandle3 := r3, hookHandle4 := r4 },
      released := released, error := none }

/-! ### `StopWinEventHook` (lines 504-530) -/

/-- Result of a `stopWinEventHook` call: the new global state and the hook
tokens released.  The function never reports an error. -/
structure StopResult where
  state : Option HookState
  released : List Nat
  deriving DecidableEq, Repr

/-- `StopWinEventHook` (lines 504-530): if a subscription exists, unhook
every non-`NULL` handle, reset the callback, delete the state; otherwise do
nothing. -/
def stopWinEventHook (g : Option HookState) : StopResult :=
  match g with
  | some st => { state := none, released := liveTokens st }
  | none => { state := none, released := [] }

/-! ### `WinEventProc` (lines 37-114) -/

/-- A raw OS notification as received by `WinEventProc`. -/
structure RawEvent where
  event : Nat
  hwnd : Nat
  idObject : Int
  idChild : Int
  deriving DecidableEq, Repr

/-- An event as delivered to the JS callback: which handler was invoked,
the `type` string, the `hwnd` field, and (for foreground events only) the
`pid` field. -/
structure Delivered where
  handler : Nat
  eventType : String
  hwnd : Nat
  fgPid : Option Nat
  deriving DecidableEq, Repr

/-- The `switch (event)` on lines 80-101 mapping a raw OS event code to the
event-type string, `none` for the `default: return` branch. -/
def mapEventType (event : Nat) : Option String :=
  if event = EVENT_OBJECT_LOCATIONCHANGE then some "locationchange"
  else if event = EVENT_SYSTEM_MOVESIZESTART then some "movestart"
  else if event = EVENT_SYSTEM_MOVESIZEEND then some "moveend"
  else if event = EVENT_SYSTEM_MINIMIZESTART then some "minimizestart"
  else if event = EVENT_SYSTEM_MINIMIZEEND then some "minimizeend"
  else if event = EVENT_OBJECT_DESTROY then some "destroy"
  else none

/-- `WinEventProc` (lines 37-114).  `g` is the global state at dispatch
time; `pidOf` models `GetWindowThreadProcessId(hwnd, &windowPid)`.  Returns
the event delivered to the callback, or `none` when the notification is
discarded. -/
def WinEventProc (g : Option HookState) (pidOf : Nat → Nat)
    (e : RawEvent) : Option Delivered :=
  match g with
  | none => none
  | some st =>
    if e.idObject ≠ OBJID_WINDOW ∨ e.idChild ≠ CHILDID_SELF then none
    else if e.event = EVENT_SYSTEM_FOREGROUND then
      match st.jsCallback with
      | some h => some { handler := h, eventType := "foreground",
                         hwnd := e.hwnd, fgPid := some (pidOf e.hwnd) }
      | none => none
    else if pidOf e.hwnd ≠ st.targetPid then none
    else
      match mapEventType e.event with
      | none => none
      | some t =>
        match st.jsCallback with
        | some h => some { handler := h, eventType := t,
                           hwnd := e.hwnd, fgPid := none }
        | none => none

/-- The seven event kinds of the external interface. -/
def eventKinds : List String :=
  ["foreground", "locationchange", "movestart", "moveend",
   "minimizestart", "minimizeend", "destroy"]

/-! ### Reachable subscription states

`g_hookState` starts as `nullptr` (line 34) and is mutated only by
`StartWinEventHook` and `StopWinEventHook`. -/

/-- The global states reachable by any sequence of `start` and `stop`
calls, with arbitrary OS outcomes for the hook registrations. -/
inductive Reachable : Option HookState → Prop
  | init : Reachable none
  | start (g : Option HookState) (pid h : Nat) (r1 r2 r3 r4 : Option Nat)
      (lastError : Nat) : Reachable g →
      Reachable (startWinEventHook g pid h r1 r2 r3 r4 lastError).state
  | stop (g : Option HookState) : Reachable g →
      Reachable (stopWinEventHook g).state

/-- A fully-live subscription: handler set and at least one hook token
active. -/
def LiveState (st : HookState) : Prop :=
  st.jsCallback.isSome = true ∧
    (st.hookHandle1.isSome = true ∨ st.hookHandle2.isSome = true ∨
     st.hookHandle3.isSome = true ∨ st.hookHandle4.isSome = true)

/-! ### `EnumProc` / `FindWindowByPid` (lines 139-203)

`EnumWindows` presents each top-level window once, in OS enumeration
order; we model the enumeration as a list of per-window OS facts.  Rect
coordinates are the `LONG` fields of a `RECT`, modelled as `Int`;
`rect = none` models `GetWindowRect` failing. -/

/-- The OS facts `EnumProc` queries about one enumerated window:
`IsWindowVisible`, `GetWindowThreadProcessId`, `GetWindowLongPtr(GWL_EXSTYLE)`,
`GetWindowTextW` (its return value, the title length), `GetWindowRect`. -/
structure WindowInfo where
  hwnd : Nat
  pid : Nat
  visible : Bool
  exStyle : Nat
  titleLen : Nat
  rect : Option (Int × Int × Int × Int)
  deriving DecidableEq, Repr

/-- The area computed on lines 167-172: `(right-left)*(bottom-top)` when
`GetWindowRect` succeeds, `0` otherwise.  A rect is `(left, top, right,
bottom)`. -/
def windowArea (w : WindowInfo) : Int :=
  match w.rect with
  | some (l, t, r, b) => (r - l) * (b - t)
  | none => 0

/-- One invocation of `EnumProc` (lines 139-180) on the accumulator
`(bestHwnd, bestArea)`; `bestHwnd = 0` models `NULL`. -/
def enumStep (pid : Nat) (acc : Nat × Int) (w : WindowInfo) : Nat × Int :=
  if !w.visible then acc
  else if w.pid ≠ pid then acc
  else if w.exStyle &&& WS_EX_TOOLWINDOW ≠ 0 then acc
  else if w.titleLen = 0 then acc
  else if windowArea w > acc.2 then (w.hwnd, windowArea w) else acc

/-- `FindWindowByPid` (lines 183-203): run the enumeration with
`EnumData data = { targetPid, NULL, 0 }` and return `bestHwnd` when it is
non-`NULL`, else null (not-found). -/
def findWindowByPid (windows : List WindowInfo) (pid : Nat) : Option Nat :=
  let d := windows.foldl (enumStep pid) (0, 0)
  if d.1 ≠ 0 then some d.1 else none

/-- A window qualifies as a candidate (the four guards on lines 142-165):
visible, owned by `pid`, not a tool window, non-empty title. -/
def qualifies (pid : Nat) (w : WindowInfo) : Bool :=
  w.visible && w.pid == pid && (w.exStyle &&& WS_EX_TOOLWINDOW == 0)
    && w.titleLen != 0

/-- One step of maximum-area selection: keep the current best, replacing
it only on strictly larger area (so ties go to the first seen). -/
def maxStep (a : Option WindowInfo) (w : WindowInfo) : Option WindowInfo :=
  match a with
  | none => some w
  | some b => if windowArea w > windowArea b then some w else some b

/-- Maximum-area selection with first-seen tie-break. -/
def maxAreaFirst (acc : Option WindowInfo) (ws : List WindowInfo) :
    Option WindowInfo :=
  ws.foldl maxStep acc

/-- A qualifying candidate of positive computed area. -/
def posQualifies (pid : Nat) (w : WindowInfo) : Bool :=
  qualifies pid w && decide (0 < windowArea w)

/-- Modelled from the spec sentence for `findWindowByProcessId`: among
qualifying candidates, the one with maximum area, ties broken by
first-seen-in-enumeration-order; not-found if no candidate qualifies.
This is the spec-side definition for the refinement claim, to be compared
with `findWindowByPid` above (which is translated from the code). -/
def specFindWindowByPid (windows : List WindowInfo) (pid : Nat) :
    Option Nat :=
  (maxAreaFirst none (windows.filter (qualifies pid))).map WindowInfo.hwnd

/-- Like `specFindWindowByPid` but restricted to candidates of positive
area: the amended selection rule actually implemented by the code. -/
def specFindWindowByPidPos (windows : List WindowInfo) (pid : Nat) :
    Option Nat :=
  (maxAreaFirst none (windows.filter (posQualifies pid))).map
    WindowInfo.hwnd

/-! ### `GetDpiScaleForHwnd` (lines 298-330)

The function probes `user32.dll` for `GetDpiForWindow` at run time; the
probe results and the system DPI read via `GetDC`/`GetDeviceCaps` are the
OS environment.  The returned scale is modelled as a rational. -/

/-- The OS facts `GetDpiScaleForHwnd` depends on: whether
`GetModuleHandleW(L"user32.dll")` succeeds, what
`GetProcAddress(user32, "GetDpiForWindow")` yields (`none` = facility
absent), and the system DPI obtained through `GetDC`/`GetDeviceCaps`. -/
structure DpiOS where
  user32Present : Bool
  getDpiForWindowProc : Option (Nat → Nat)
  systemDpi : Nat

/-- `GetDpiScaleForHwnd` (lines 298-330): fall back to `1.0` when
`user32.dll` cannot be resolved; use the per-window query when
`GetDpiForWindow` is available; else use the system DPI. -/
def getDpiScaleForHwnd (os : DpiOS) (hwnd : Nat) : ℚ :=
  if !os.user32Present then 1
  else
    match os.getDpiForWindowProc with
    | some f => (f hwnd : ℚ) / 96
    | none => (os.systemDpi : ℚ) / 96

/-! ### `ForceActivateWindow` (lines 348-401) -/

/-- The OS facts `ForceActivateWindow` depends on: `IsWindow`,
`GetForegroundWindow` before the attempt (`0` = `NULL`), the thread id of
a window (`GetWindowThreadProcessId(hwnd, NULL)`), the current thread id,
whether `AttachThreadInput(..., TRUE)` succeeds, `IsIconic`, and
`GetForegroundWindow` after the attempt. -/
structure ActivateOS where
  isWindow : Nat → Bool
  foregroundHwnd : Nat
  threadOf : Nat → Nat
  currentThreadId : Nat
  attachSucceeds : Bool
  iconic : Nat → Bool
  newForegroundHwnd : Nat

/-- The observable outcome of `ForceActivateWindow`: its boolean return
value and the input-context linking it performed — whether
`AttachThreadInput(cur, fg, TRUE)` was called, whether it succeeded (the
`attached` local), and whether the matching
`AttachThreadInput(cur, fg, FALSE)` was called. -/
structure ActivateResult where
  success : Bool
  attachAttempted : Bool
  attached : Bool
  detachCalled : Bool
  deriving DecidableEq, Repr

/-- `ForceActivateWindow` (lines 348-401): return `false` straight away on
an invalid handle; otherwise attach thread input to the foreground thread
when it is distinct and non-null, restore, raise and focus the window,
detach exactly when attached, and report whether the window is now
foreground. -/
def forceActivateWindow (os : ActivateOS) (hwnd : Nat) : ActivateResult :=
  if !os.isWindow hwnd then
    { success := false, attachAttempted := false,
      attached := false, detachCalled := false }
  else
    let fgThreadId := if os.foregroundHwnd = 0 then 0
                      else os.threadOf os.foregroundHwnd
    let attempt := fgThreadId ≠ 0 ∧ fgThreadId ≠ os.currentThreadId
    let attached := attempt ∧ os.attachSucceeds = true
    { success := os.newForegroundHwnd == hwnd,
      attachAttempted := decide attempt,
      attached := decide attached,
      detachCalled := decide attached }

/-! ## Helper lemmas -/

/-- Any delivered event was delivered to the handler currently stored in
the subscription record. -/
theorem winEventProc_handler (st : HookState) (pidOf : Nat → Nat)
    (e : RawEvent) (d : Delivered)
    (hd : WinEventProc (some st) pidOf e = some d) :
    st.jsCallback = some d.handler := by
  simp only [WinEventProc] at hd
  split at hd
  · exact absurd hd (by simp)
  · split at hd
    · cases hcb : st.jsCallback <;> rw [hcb] at hd
      · exact absurd hd (by simp)
      · simp only [Option.some.injEq] at hd
        rw [← hd]
    · split at hd
      · exact absurd hd (by simp)
      · cases hmap : mapEventType e.event <;> rw [hmap] at hd
        · exact absurd hd (by simp)
        · cases hcb : st.jsCallback <;> rw [hcb] at hd
          · exact absurd hd (by simp)
          · simp only [Option.some.injEq] at hd
            rw [← hd]

/-- A successful start installs exactly the requested handler. -/
theorem start_state_handler (g : Option HookState) (pid h : Nat)
    (r1 r2 r3 r4 : Option Nat) (lastError : Nat) (st : HookState)
    (hs : (startWinEventHook g pid h r1 r2 r3 r4 lastError).state = some st) :
    st.jsCallback = some h := by
  simp only [startWinEventHook] at hs
  split at hs
  · exact absurd hs (by simp)
  · simp only [Option.some.injEq] at hs
    rw [← hs]

/-! ## Claim C3 -/

/-- Claim C3: `startWinEventHook` fails with an OS-error if and only if all
four hook registrations fail; on failure the new subscription is discarded
and the core is left Stopped; if at least one registration succeeds the
call succeeds with no error and the core is Live. -/
theorem start_error_iff_all_fail (g : Option HookState) (pid h : Nat)
    (r1 r2 r3 r4 : Option Nat) (lastError : Nat) :
    ((startWinEventHook g pid h r1 r2 r3 r4 lastError).error.isSome = true ↔
       (r1 = none ∧ r2 = none ∧ r3 = none ∧ r4 = none)) ∧
    ((startWinEventHook g pid h r1 r2 r3 r4 lastError).error.isSome = true →
       (startWinEventHook g pid h r1 r2 r3 r4 lastError).error = some lastError ∧
       (startWinEventHook g pid h r1 r2 r3 r4 lastError).state = none) ∧
    ((startWinEventHook g pid h r1 r2 r3 r4 lastError).error = none →
       ∃ st, (startWinEventHook g pid h r1 r2 r3 r4 lastError).state = some st ∧
         LiveState st) := by
  cases r1 <;> cases r2 <;> cases r3 <;> cases r4 <;>
    simp [startWinEventHook, LiveState]

/-- Witness for C3: with all four registrations failing the call errors
and leaves the Stopped state; the error-free case is vacuously covered. -/
theorem start_error_iff_all_fail_witness :
    ((startWinEventHook none 7 1 none none none none 5).error.isSome = true ↔
       ((none : Option Nat) = none ∧ (none : Option Nat) = none ∧
        (none : Option Nat) = none ∧ (none : Option Nat) = none)) ∧
    ((startWinEventHook none 7 1 none none none none 5).error.isSome = true →
       (startWinEventHook none 7 1 none none none none 5).error = some 5 ∧
       (startWinEventHook none 7 1 none none none none 5).state = none) ∧
    ((startWinEventHook none 7 1 none none none none 5).error = none →
       ∃ st, (startWinEventHook none 7 1 none none none none 5).state = some st ∧
         LiveState st) :=
  start_error_iff_all_fail none 7 1 none none none none 5

/-! ## Claim C8 -/

/-- Claim C8: `stopWinEventHook` is idempotent: after any stop the state is
fully torn down (no state record, hence zero live hook tokens and no
handler), stopping again from there is a no-op returning the same
torn-down result, and stopping a never-started core is the same no-op.
The operation has no error output at all in the code (it always returns
`undefined`), which the model reflects by `StopResult` having no error
field. -/
theorem stop_idempotent (g : Option HookState) :
    (stopWinEventHook g).state = none ∧
    stopWinEventHook (stopWinEventHook g).state =
      { state := none, released := [] } ∧
    stopWinEventHook (none : Option HookState) =
      { state := none, released := [] } := by
  cases g <;> exact ⟨rfl, rfl, rfl⟩

/-! ## Claim C1 -/

/-- Claim C1: after `start(p1,h1); start(p2,h2)` returns, the replaced
handler `h1` is never invoked again: the second start releases every live
hook token of the first subscription and clears its handler reference, and
any event dispatched against the resulting state is delivered (if at all)
to a handler other than `h1`. -/
theorem no_stale_handler_after_restart (g : Option HookState)
    (p1 h1 p2 h2 : Nat) (r1 r2 r3 r4 s1 s2 s3 s4 : Option Nat)
    (e1 e2 : Nat) (st1 : HookState) (pidOf : Nat → Nat) (e : RawEvent)
    (d : Delivered) (hne : h1 ≠ h2)
    (_hst1 : (startWinEventHook g p1 h1 r1 r2 r3 r4 e1).state = some st1)
    (hd : WinEventProc
        (startWinEventHook (some st1) p2 h2 s1 s2 s3 s4 e2).state
        pidOf e = some d) :
    (startWinEventHook (some st1) p2 h2 s1 s2 s3 s4 e2).released =
      liveTokens st1 ∧ d.handler ≠ h1 := by
  constructor
  · simp only [startWinEventHook]
    split <;> rfl
  · cases hst2 : (startWinEventHook (some st1) p2 h2 s1 s2 s3 s4 e2).state
      with
    | none => rw [hst2] at hd; exact absurd hd (by simp [WinEventProc])
    | some st2 =>
      rw [hst2] at hd
      have hcb := winEventProc_handler st2 pidOf e d hd
      have hh2 := start_state_handler (some st1) p2 h2 s1 s2 s3 s4 e2 st2 hst2
      rw [hh2] at hcb
      intro hcontra
      rw [hcontra] at hcb
      exact hne (Option.some.injEq h2 h1 ▸ hcb).symm

/-- Witness for C1: a concrete restart.  The first start installs handler
`10` with one live token `100`; the second start installs handler `20`
with token `200`; a foreground event dispatched afterwards is delivered to
handler `20`, not to `10`, and the restart released exactly token `100`. -/
theorem no_stale_handler_after_restart_witness :
    (startWinEventHook
        (some { targetPid := 1, jsCallback := some 10,
                hookHandle1 := some 100, hookHandle2 := none,
                hookHandle3 := none, hookHandle4 := none })
        2 20 (some 200) none none none 0).released =
      liveTokens { targetPid := 1, jsCallback := some 10,
                   hookHandle1 := some 100, hookHandle2 := none,
                   hookHandle3 := none, hookHandle4 := none } ∧
    ({ handler := 20, eventType := "foreground", hwnd := 5,
       fgPid := some 9 } : Delivered).handler ≠ 10 :=
  no_stale_handler_after_restart none 1 10 2 20
    (some 100) none none none (some 200) none none none 0 0
    { targetPid := 1, jsCallback := some 10, hookHandle1 := some 100,
      hookHandle2 := none, hookHandle3 := none, hookHandle4 := none }
    (fun _ => 9) { event := 3, hwnd := 5, idObject := 0, idChild := 0 }
    { handler := 20, eventType := "foreground", hwnd := 5, fgPid := some 9 }
    (by decide) (by decide) (by decide)

/-! ## Claim C2 -/

/-- The invariant of the global subscription slot: fully torn down
(`none`) or fully live. -/
def StoppedOrLive (g : Option HookState) : Prop :=
  match g with
  | none => True
  | some st => LiveState st

/-- Claim C2: every global state reachable by any sequence of `start` and
`stop` calls is either fully torn down (no state, hence no handler and no
live hook tokens) or fully live (handler set and at least one hook token
active); no reachable state has a handler without tokens or tokens
without a handler. -/
theorem reachable_stopped_or_live (g : Option HookState)
    (hg : Reachable g) : StoppedOrLive g := by
  induction hg with
  | init => trivial
  | start g pid h r1 r2 r3 r4 lastError _ _ =>
    cases r1 <;> cases r2 <;> cases r3 <;> cases r4 <;>
      simp [startWinEventHook, StoppedOrLive, LiveState]
  | stop g _ _ => cases g <;> trivial

/-- Witness for C2: the state after a successful start from the initial
state is reachable and satisfies the invariant. -/
theorem reachable_stopped_or_live_witness :
    StoppedOrLive (startWinEventHook none 7 1 (some 100) none none none
      0).state :=
  reachable_stopped_or_live _
    (Reachable.start none 7 1 (some 100) none none none 0 Reachable.init)

/-! ## Claim C4 -/

/-- Claim C4: within the dispatch callback (for notifications passing the
window-scope guard, with a handler registered), a foreground event is
delivered unconditionally, carrying the window handle and the owning pid
of the newly foregrounded window — no comparison with `targetPid` — while
every other event kind is delivered only when the owning pid equals
`targetPid`; non-matching non-foreground events are discarded. -/
theorem foreground_unfiltered (st : HookState) (h : Nat)
    (pidOf : Nat → Nat) (e : RawEvent) (hcb : st.jsCallback = some h)
    (hobj : e.idObject = OBJID_WINDOW) (hch : e.idChild = CHILDID_SELF) :
    (e.event = EVENT_SYSTEM_FOREGROUND →
      WinEventProc (some st) pidOf e =
        some { handler := h, eventType := "foreground", hwnd := e.hwnd,
               fgPid := some (pidOf e.hwnd) }) ∧
    (e.event ≠ EVENT_SYSTEM_FOREGROUND → pidOf e.hwnd ≠ st.targetPid →
      WinEventProc (some st) pidOf e = none) ∧
    (e.event ≠ EVENT_SYSTEM_FOREGROUND →
      (WinEventProc (some st) pidOf e).isSome = true →
      pidOf e.hwnd = st.targetPid) := by
  refine ⟨fun hf => ?_, fun hf hp => ?_, fun hf hs => ?_⟩
  · simp [WinEventProc, hobj, hch, hf, hcb]
  · simp [WinEventProc, hobj, hch, hf, hp]
  · by_contra hp
    rw [show WinEventProc (some st) pidOf e = none by
          simp [WinEventProc, hobj, hch, hf, hp]] at hs
    exact absurd hs (by simp)

/-- Witness for C4: a concrete subscription targeting pid `1` and a
foreground notification from a window owned by pid `9` (not the target):
the foreground conjunct applies with its hypothesis discharged, and the
non-foreground conjuncts hold vacuously. -/
theorem foreground_unfiltered_witness :
    (({ event := 3, hwnd := 5, idObject := 0, idChild := 0 } :
        RawEvent).event = EVENT_SYSTEM_FOREGROUND →
      WinEventProc
        (some { targetPid := 1, jsCallback := some 10,
                hookHandle1 := some 100, hookHandle2 := none,
                hookHandle3 := none, hookHandle4 := none })
        (fun _ => 9) { event := 3, hwnd := 5, idObject := 0, idChild := 0 } =
        some { handler := 10, eventType := "foreground", hwnd := 5,
               fgPid := some 9 }) ∧
    (({ event := 3, hwnd := 5, idObject := 0, idChild := 0 } :
        RawEvent).event ≠ EVENT_SYSTEM_FOREGROUND → 9 ≠ 1 →
      WinEventProc
        (some { targetPid := 1, jsCallback := some 10,
                hookHandle1 := some 100, hookHandle2 := none,
                hookHandle3 := none, hookHandle4 := none })
        (fun _ => 9) { event := 3, hwnd := 5, idObject := 0, idChild := 0 } =
        none) ∧
    (({ event := 3, hwnd := 5, idObject := 0, idChild := 0 } :
        RawEvent).event ≠ EVENT_SYSTEM_FOREGROUND →
      (WinEventProc
        (some { targetPid := 1, jsCallback := some 10,
                hookHandle1 := some 100, hookHandle2 := none,
                hookHandle3 := none, hookHandle4 := none })
        (fun _ => 9)
        { event := 3, hwnd := 5, idObject := 0, idChild := 0 }).isSome =
        true → 9 = 1) :=
  foreground_unfiltered
    { targetPid := 1, jsCallback := some 10, hookHandle1 := some 100,
      hookHandle2 := none, hookHandle3 := none, hookHandle4 := none }
    10 (fun _ => 9) { event := 3, hwnd := 5, idObject := 0, idChild := 0 }
    rfl rfl rfl

/-! ## Claim C5 -/

/-- Every string produced by the raw-code mapping is one of the seven
event kinds. -/
theorem mapEventType_mem (ev : Nat) (t : String)
    (hmap : mapEventType ev = some t) : t ∈ eventKinds := by
  simp only [mapEventType] at hmap
  repeat' split at hmap
  all_goals simp_all [eventKinds]

/-- Claim C5: every event delivered by the dispatch callback has one of
the seven defined kinds, and for non-foreground notifications the
delivered kind is exactly what the raw-code mapping produced — so a raw
code mapping to none of the six non-foreground kinds is discarded
silently (no delivery), and no other type value ever reaches the
handler. -/
theorem delivered_kind_mem (g : Option HookState) (pidOf : Nat → Nat)
    (e : RawEvent) (d : Delivered)
    (hd : WinEventProc g pidOf e = some d) :
    d.eventType ∈ eventKinds ∧
    (e.event ≠ EVENT_SYSTEM_FOREGROUND →
      mapEventType e.event = some d.eventType) := by
  cases g with
  | none => exact absurd hd (by simp [WinEventProc])
  | some st =>
    simp only [WinEventProc] at hd
    split at hd
    · exact absurd hd (by simp)
    · split at hd
      · rename_i hguard hf
        cases hcb : st.jsCallback <;> rw [hcb] at hd
        · exact absurd hd (by simp)
        · simp only [Option.some.injEq] at hd
          subst hd
          exact ⟨by simp [eventKinds], fun hnf => absurd hf hnf⟩
      · split at hd
        · exact absurd hd (by simp)
        · cases hmap : mapEventType e.event <;> rw [hmap] at hd
          · exact absurd hd (by simp)
          · rename_i t
            cases hcb : st.jsCallback <;> rw [hcb] at hd
            · exact absurd hd (by simp)
            · simp only [Option.some.injEq] at hd
              subst hd
              exact ⟨mapEventType_mem e.event t hmap, fun _ => rfl⟩

/-- Witness for C5: a location-change notification from the target process
is delivered with kind `locationchange`, which is among the seven kinds
and is exactly the raw-code mapping. -/
theorem delivered_kind_mem_witness :
    ({ handler := 10, eventType := "locationchange", hwnd := 5,
       fgPid := none } : Delivered).eventType ∈ eventKinds ∧
    (({ event := 0x800B, hwnd := 5, idObject := 0, idChild := 0 } :
        RawEvent).event ≠ EVENT_SYSTEM_FOREGROUND →
      mapEventType 0x800B = some "locationchange") :=
  delivered_kind_mem
    (some { targetPid := 1, jsCallback := some 10,
            hookHandle1 := some 100, hookHandle2 := none,
            hookHandle3 := none, hookHandle4 := none })
    (fun _ => 1)
    { event := 0x800B, hwnd := 5, idObject := 0, idChild := 0 }
    { handler := 10, eventType := "locationchange", hwnd := 5,
      fgPid := none }
    (by decide)

/-! ## Window enumeration lemmas (for C6 and C10) -/

/-- The guard chain of `EnumProc` is exactly the `qualifies` predicate:
a step changes the accumulator only for a qualifying window that strictly
beats the current best area. -/
theorem enumStep_eq (pid : Nat) (acc : Nat × Int) (w : WindowInfo) :
    enumStep pid acc w =
      if qualifies pid w then
        (if windowArea w > acc.2 then (w.hwnd, windowArea w) else acc)
      else acc := by
  simp only [enumStep, qualifies]
  by_cases hv : w.visible = true <;>
    by_cases hp : w.pid = pid <;>
    by_cases hs : w.exStyle &&& WS_EX_TOOLWINDOW = 0 <;>
    by_cases ht : w.titleLen = 0 <;>
    simp [hv, hp, hs, ht]

/-- Unfolding one step of the selection fold. -/
theorem maxAreaFirst_cons (cur : Option WindowInfo) (w : WindowInfo)
    (ws : List WindowInfo) :
    maxAreaFirst cur (w :: ws) = maxAreaFirst (maxStep cur w) ws := rfl

/-- The selection fold yields a window drawn from its input list or from
its starting accumulator. -/
theorem maxAreaFirst_mem (ws : List WindowInfo) :
    ∀ (cur : Option WindowInfo) (b : WindowInfo),
      maxAreaFirst cur ws = some b → b ∈ ws ∨ cur = some b := by
  induction ws with
  | nil => exact fun cur b hb => Or.inr hb
  | cons w ws ih =>
    intro cur b hb
    rw [maxAreaFirst_cons] at hb
    rcases ih (maxStep cur w) b hb with hmem | hcur
    · exact Or.inl (List.mem_cons_of_mem w hmem)
    · cases cur with
      | none =>
        simp only [maxStep, Option.some.injEq] at hcur
        exact Or.inl (hcur ▸ List.mem_cons_self w ws)
      | some c =>
        simp only [maxStep] at hcur
        by_cases hlt : windowArea w > windowArea c
        · rw [if_pos hlt] at hcur
          simp only [Option.some.injEq] at hcur
          exact Or.inl (hcur ▸ List.mem_cons_self w ws)
        · rw [if_neg hlt] at hcur
          exact Or.inr hcur

/-- The correspondence invariant between the `EnumProc` accumulator
`(bestHwnd, bestArea)` and the spec-side selection over the
positive-area qualifying candidates. -/
def EnumRel (acc : Nat × Int) (cur : Option WindowInfo) : Prop :=
  (cur = none ∧ acc = (0, 0)) ∨
    (∃ b, cur = some b ∧ acc = (b.hwnd, windowArea b) ∧ 0 < windowArea b)

/-- Core simulation: folding `EnumProc` over an enumeration corresponds
step-by-step to the maximum-area/first-seen selection over the
positive-area qualifying candidates. -/
theorem enum_foldl_rel (pid : Nat) (ws : List WindowInfo) :
    ∀ (acc : Nat × Int) (cur : Option WindowInfo), EnumRel acc cur →
      EnumRel (ws.foldl (enumStep pid) acc)
        (maxAreaFirst cur (ws.filter (posQualifies pid))) := by
  induction ws with
  | nil => exact fun acc cur h => h
  | cons w ws ih =>
    intro acc cur hrel
    by_cases hq : posQualifies pid w = true
    · have hq1 : qualifies pid w = true := ((Bool.and_eq_true _ _).mp hq).1
      have hq2 : 0 < windowArea w :=
        of_decide_eq_true ((Bool.and_eq_true _ _).mp hq).2
      rw [List.foldl_cons, List.filter_cons_of_pos hq, maxAreaFirst_cons]
      rcases hrel with ⟨hc, ha⟩ | ⟨b, hc, ha, hpos⟩
      · subst hc
        have hstep : enumStep pid acc w = (w.hwnd, windowArea w) := by
          rw [enumStep_eq, if_pos hq1, if_pos (by rw [ha]; exact hq2)]
        rw [hstep]
        exact ih (w.hwnd, windowArea w) (maxStep none w)
          (Or.inr ⟨w, rfl, rfl, hq2⟩)
      · subst hc
        by_cases hlt : windowArea w > windowArea b
        · have hstep : enumStep pid acc w = (w.hwnd, windowArea w) := by
            rw [enumStep_eq, if_pos hq1, if_pos (by rw [ha]; exact hlt)]
          have hmax : maxStep (some b) w = some w := by
            simp only [maxStep]; rw [if_pos hlt]
          rw [hstep, hmax]
          exact ih (w.hwnd, windowArea w) (some w)
            (Or.inr ⟨w, rfl, rfl, hq2⟩)
        · have hstep : enumStep pid acc w = acc := by
            rw [enumStep_eq, if_pos hq1, if_neg (by rw [ha]; exact hlt)]
          have hmax : maxStep (some b) w = some b := by
            simp only [maxStep]; rw [if_neg hlt]
          rw [hstep, hmax]
          exact ih acc (some b) (Or.inr ⟨b, rfl, ha, hpos⟩)
    · have hstep : enumStep pid acc w = acc := by
        rw [enumStep_eq]
        by_cases hq1 : qualifies pid w = true
        · have hz : ¬ 0 < windowArea w := by
            intro hpos
            exact hq (by
              simp only [posQualifies, hq1, decide_eq_true hpos]
              rfl)
          have hacc : 0 ≤ acc.2 := by
            rcases hrel with ⟨_, ha⟩ | ⟨b, _, ha, hpos⟩
            · rw [ha]
            · rw [ha]; exact le_of_lt hpos
          rw [if_pos hq1,
            if_neg (not_lt.mpr (le_trans (le_of_not_lt hz) hacc))]
        · rw [if_neg (by simpa using hq1)]
      rw [List.foldl_cons, hstep, List.filter_cons_of_neg (by simpa using hq)]
      exact ih acc cur hrel

/-- If every qualifying window has zero computed area, the `EnumProc`
fold never moves off its initial `(NULL, 0)` accumulator. -/
theorem enum_foldl_zero (pid : Nat) (ws : List WindowInfo)
    (hz : ∀ w ∈ ws, qualifies pid w = true → windowArea w = 0) :
    ws.foldl (enumStep pid) (0, 0) = (0, 0) := by
  induction ws with
  | nil => rfl
  | cons w ws ih =>
    rw [List.foldl_cons]
    have hstep : enumStep pid (0, 0) w = (0, 0) := by
      rw [enumStep_eq]
      by_cases hq : qualifies pid w = true
      · rw [if_pos hq]
        have hz0 := hz w (List.mem_cons_self w ws) hq
        rw [if_neg (by simp [hz0])]
      · rw [if_neg hq]
    rw [hstep]
    exact ih (fun w hw hq => hz w (List.mem_cons_of_mem _ hw) hq)

/-! ## Claim C6 -/

/-- Counterexample to C6 as stated: a single enumerated window that is
visible, owned by the pid, not a tool window and titled — so it qualifies
— but whose outer rectangle is degenerate (area `0`).  The claimed
selection rule returns its handle (it is the unique qualifying window,
hence the maximum-area one), but the code returns not-found, because a
candidate is recorded only when its area strictly exceeds the initial
best of `0`. -/
theorem findWindowByPid_zero_area_cex :
    qualifies 5 { hwnd := 1, pid := 5, visible := true, exStyle := 0,
                  titleLen := 1, rect := some (0, 0, 0, 0) } = true ∧
    findWindowByPid
      [{ hwnd := 1, pid := 5, visible := true, exStyle := 0,
         titleLen := 1, rect := some (0, 0, 0, 0) }] 5 = none ∧
    specFindWindowByPid
      [{ hwnd := 1, pid := 5, visible := true, exStyle := 0,
         titleLen := 1, rect := some (0, 0, 0, 0) }] 5 = some 1 :=
  ⟨by decide, by decide, by decide⟩

/-- Claim C6 (amended): among the enumerated windows that qualify
(visible, owned by the pid, non-tool, titled) **and have positive
computed area**, `findWindowByPid` returns the handle of the one with
maximum area, ties broken by first-seen-in-enumeration-order, and returns
not-found when no qualifying window has positive area.  (The hypothesis
that enumerated handles are non-`NULL` reflects that the OS never
enumerates the `NULL` window, which the code uses as its not-found
sentinel.) -/
theorem findWindowByPid_eq_specPos (ws : List WindowInfo) (pid : Nat)
    (hnz : ∀ w ∈ ws, w.hwnd ≠ 0) :
    findWindowByPid ws pid = specFindWindowByPidPos ws pid := by
  rcases enum_foldl_rel pid ws (0, 0) none (Or.inl ⟨rfl, rfl⟩) with
    ⟨hc, ha⟩ | ⟨b, hc, ha, hpos⟩
  · simp only [findWindowByPid, specFindWindowByPidPos, ha, hc]
    simp
  · have hb_mem : b ∈ ws := by
      rcases maxAreaFirst_mem (ws.filter (posQualifies pid)) none b hc with
        hmem | hcur
      · exact List.mem_of_mem_filter hmem
      · exact absurd hcur (by simp)
    have hbnz : b.hwnd ≠ 0 := hnz b hb_mem
    simp only [findWindowByPid, specFindWindowByPidPos, ha, hc]
    simp [hbnz]

/-- Witness for the amended C6, matching the spec example: two visible,
titled, non-tool windows of areas 100 and 200 owned by pid 5; the code
and the amended selection rule agree and pick the 200-area window. -/
theorem findWindowByPid_eq_specPos_witness :
    findWindowByPid
      [{ hwnd := 1, pid := 5, visible := true, exStyle := 0,
         titleLen := 1, rect := some (0, 0, 10, 10) },
       { hwnd := 2, pid := 5, visible := true, exStyle := 0,
         titleLen := 1, rect := some (0, 0, 10, 20) }] 5 =
      specFindWindowByPidPos
        [{ hwnd := 1, pid := 5, visible := true, exStyle := 0,
           titleLen := 1, rect := some (0, 0, 10, 10) },
         { hwnd := 2, pid := 5, visible := true, exStyle := 0,
           titleLen := 1, rect := some (0, 0, 10, 20) }] 5 ∧
    findWindowByPid
      [{ hwnd := 1, pid := 5, visible := true, exStyle := 0,
         titleLen := 1, rect := some (0, 0, 10, 10) },
       { hwnd := 2, pid := 5, visible := true, exStyle := 0,
         titleLen := 1, rect := some (0, 0, 10, 20) }] 5 = some 2 :=
  ⟨findWindowByPid_eq_specPos _ 5 (by decide), by decide⟩

/-! ## Claim C10 -/

/-- Claim C10: `findWindowByPid` never returns a qualifying window of
non-positive computed area (a failed rectangle query counts as area `0`):
any returned handle belongs to a qualifying enumerated window of strictly
positive area, and a call whose qualifying windows all have area zero
returns not-found. -/
theorem findWindowByPid_no_zero_area (ws : List WindowInfo) (pid : Nat) :
    ((∀ w ∈ ws, qualifies pid w = true → windowArea w = 0) →
      findWindowByPid ws pid = none) ∧
    (∀ h, findWindowByPid ws pid = some h →
      ∃ w, w ∈ ws ∧ qualifies pid w = true ∧ w.hwnd = h ∧
        0 < windowArea w) := by
  constructor
  · intro hz
    simp only [findWindowByPid, enum_foldl_zero pid ws hz]
    simp
  · intro h hfind
    rcases enum_foldl_rel pid ws (0, 0) none (Or.inl ⟨rfl, rfl⟩) with
      ⟨_, ha⟩ | ⟨b, hc, ha, hpos⟩
    · rw [show findWindowByPid ws pid = none by
          simp only [findWindowByPid, ha]; simp] at hfind
      exact absurd hfind (by simp)
    · have hb_filter : b ∈ ws.filter (posQualifies pid) := by
        rcases maxAreaFirst_mem (ws.filter (posQualifies pid)) none b hc
          with hmem | hcur
        · exact hmem
        · exact absurd hcur (by simp)
      have hb_mem : b ∈ ws := List.mem_of_mem_filter hb_filter
      have hb_pq : posQualifies pid b = true :=
        List.of_mem_filter hb_filter
      have hb_q : qualifies pid b = true :=
        ((Bool.and_eq_true _ _).mp hb_pq).1
      have hb_h : b.hwnd = h := by
        simp only [findWindowByPid, ha] at hfind
        by_cases hb0 : b.hwnd = 0
        · rw [if_neg (by simpa using hb0)] at hfind
          exact absurd hfind (by simp)
        · rw [if_pos (by simpa using hb0)] at hfind
          simpa using hfind
      exact ⟨b, hb_mem, hb_q, hb_h, hpos⟩

/-- Witness for C10: a qualifying window whose rectangle query failed
(area `0`) together with a qualifying zero-size window: the call returns
not-found, and the some-case conjunct holds vacuously there. -/
theorem findWindowByPid_no_zero_area_witness :
    ((∀ w ∈ ([{ hwnd := 1, pid := 5, visible := true, exStyle := 0,
                titleLen := 1, rect := none },
              { hwnd := 2, pid := 5, visible := true, exStyle := 0,
                titleLen := 1,
                rect := some (3, 4, 3, 9) }] : List WindowInfo),
        qualifies 5 w = true → windowArea w = 0) →
      findWindowByPid
        [{ hwnd := 1, pid := 5, visible := true, exStyle := 0,
           titleLen := 1, rect := none },
         { hwnd := 2, pid := 5, visible := true, exStyle := 0,
           titleLen := 1, rect := some (3, 4, 3, 9) }] 5 = none) ∧
    (∀ h, findWindowByPid
        [{ hwnd := 1, pid := 5, visible := true, exStyle := 0,
           titleLen := 1, rect := none },
         { hwnd := 2, pid := 5, visible := true, exStyle := 0,
           titleLen := 1, rect := some (3, 4, 3, 9) }] 5 = some h →
      ∃ w, w ∈ ([{ hwnd := 1, pid := 5, visible := true, exStyle := 0,
                   titleLen := 1, rect := none },
                 { hwnd := 2, pid := 5, visible := true, exStyle := 0,
                   titleLen := 1,
                   rect := some (3, 4, 3, 9) }] : List WindowInfo) ∧
        qualifies 5 w = true ∧ w.hwnd = h ∧ 0 < windowArea w) :=
  findWindowByPid_no_zero_area _ 5

/-! ## Claim C7 -/

/-- Claim C7: `getDpiScaleForHwnd` attempts the per-window DPI query first
and returns `dpi/96` when that facility is available; when it is
unavailable it falls back to the system-wide DPI query; and when both
facilities are unavailable (the `user32` module itself cannot be
resolved, so neither probe can run) it returns exactly `1.0`. -/
theorem getDpiScale_probe_order (os : DpiOS) (hwnd : Nat)
    (f : Nat → Nat) :
    (os.user32Present = true → os.getDpiForWindowProc = some f →
      getDpiScaleForHwnd os hwnd = (f hwnd : ℚ) / 96) ∧
    (os.user32Present = true → os.getDpiForWindowProc = none →
      getDpiScaleForHwnd os hwnd = (os.systemDpi : ℚ) / 96) ∧
    (os.user32Present = false → getDpiScaleForHwnd os hwnd = 1) := by
  refine ⟨fun hu hp => ?_, fun hu hp => ?_, fun hu => ?_⟩
  · simp [getDpiScaleForHwnd, hu, hp]
  · simp [getDpiScaleForHwnd, hu, hp]
  · simp [getDpiScaleForHwnd, hu]

/-- A stub OS layer with both DPI facilities unavailable. -/
def dpiStubOS : DpiOS :=
  { user32Present := false, getDpiForWindowProc := none, systemDpi := 120 }

/-- A concrete per-window DPI function for the C7 witness. -/
def dpiStubF (_n : Nat) : Nat := 96

/-- Witness for C7: on the stub OS layer with both facilities unavailable
the scale is exactly `1.0`; the other two conjuncts hold vacuously
there. -/
theorem getDpiScale_probe_order_witness :
    (dpiStubOS.user32Present = true →
      dpiStubOS.getDpiForWindowProc = some dpiStubF →
      getDpiScaleForHwnd dpiStubOS 1 = (dpiStubF 1 : ℚ) / 96) ∧
    (dpiStubOS.user32Present = true →
      dpiStubOS.getDpiForWindowProc = none →
      getDpiScaleForHwnd dpiStubOS 1 = (dpiStubOS.systemDpi : ℚ) / 96) ∧
    (dpiStubOS.user32Present = false →
      getDpiScaleForHwnd dpiStubOS 1 = 1) :=
  getDpiScale_probe_order dpiStubOS 1 dpiStubF

/-! ## Claim C9 -/

/-- Claim C9: `forceActivateWindow` on an invalid or stale handle returns
`false` with no input-context linking attempted at all; and on every exit
path the input-context attach (when it was performed and succeeded) is
paired with a matching detach — `detachCalled` always equals `attached`,
so the thread-input link is never left half-applied. -/
theorem forceActivate_pairing (os : ActivateOS) (hwnd : Nat) :
    (os.isWindow hwnd = false →
      forceActivateWindow os hwnd =
        { success := false, attachAttempted := false, attached := false,
          detachCalled := false }) ∧
    (forceActivateWindow os hwnd).detachCalled =
      (forceActivateWindow os hwnd).attached := by
  cases hi : os.isWindow hwnd <;> simp [forceActivateWindow, hi]

/-- A stub OS layer whose only window-validity answer is `false`,
modelling a stale handle. -/
def staleActivateOS : ActivateOS :=
  { isWindow := fun _ => false, foregroundHwnd := 4,
    threadOf := fun n => n, currentThreadId := 1,
    attachSucceeds := true, iconic := fun _ => false,
    newForegroundHwnd := 4 }

/-- Witness for C9: activating a stale handle on the stub OS layer
returns `false` with no attach, and the detach/attach pairing holds. -/
theorem forceActivate_pairing_witness :
    (staleActivateOS.isWindow 7 = false →
      forceActivateWindow staleActivateOS 7 =
        { success := false, attachAttempted := false, attached := false,
          detachCalled := false }) ∧
    (forceActivateWindow staleActivateOS 7).detachCalled =
      (forceActivateWindow staleActivateOS 7).attached :=
  forceActivate_pairing staleActivateOS 7

end CS2Tracker
